import Mathlib

/-
Verification development for the Monitor_Maintain_Background_Service
repository (a Flask-based process monitor with an auto-restart engine).

The definitions below are a shallow embedding of the Python source:
  - src/constants.py      → numeric constants
  - src/app.py            → auto_restart_config store, configure_auto_restart,
                            set_queue_threshold, auto_restart_monitor (one
                            evaluation cycle), restart_thread /
                            queue_restart_thread completion updates,
                            restart_service_internal, restart_service
  - src/service_monitor.py → _is_service_process, stop_service

Python dicts are modelled as association lists with first-match lookup,
in-place replacement on assignment to an existing key, and append on
assignment to a fresh key.  Dict values whose keys may be absent are
modelled with Option fields; `d.get(k, default)` becomes `Option.getD`.
Floats are modelled as rationals.
-/

/-! ## Constants (src/constants.py) -/

def DEFAULT_CPU_THRESHOLD : ℚ := 80
def DEFAULT_MEMORY_THRESHOLD_MB : ℚ := 1000
def DEFAULT_QUEUE_THRESHOLD : Nat := 1000
def CPU_THRESHOLD_MIN : ℚ := 1
def CPU_THRESHOLD_MAX : ℚ := 100
def MEMORY_THRESHOLD_MIN_MB : ℚ := 1
def MEMORY_THRESHOLD_MAX_MB : ℚ := 10240
def QUEUE_THRESHOLD_MIN : Nat := 1
def QUEUE_THRESHOLD_MAX : Nat := 1000000
def AUTO_RESTART_CHECK_INTERVAL : Nat := 30
def AUTO_RESTART_ERROR_RETRY_INTERVAL : Nat := 60
def RESTART_DELAY_CPU_MEMORY : Nat := 120
def RESTART_DELAY_QUEUE : Nat := 60

/-! ## Python dict model -/

/-- A Python dict: an association list in insertion order, unique keys in
practice, first-match lookup. -/
abbrev PyDict (κ ν : Type) : Type := List (κ × ν)

namespace PyDict

variable {κ ν : Type} [DecidableEq κ]

/-- `d.get(k)` / `d[k]`: first entry whose key is `k`. -/
def lookup : PyDict κ ν → κ → Option ν
  | [], _ => none
  | (k, v) :: rest, q => if k = q then some v else lookup rest q

/-- `d[k] = v`: replace in place if the key exists, else append. -/
def insert : PyDict κ ν → κ → ν → PyDict κ ν
  | [], k, v => [(k, v)]
  | (k₀, v₀) :: rest, k, v =>
    if k₀ = k then (k, v) :: rest else (k₀, v₀) :: insert rest k v

/-- `del d[k]` (removes every entry under `k`; dicts hold at most one). -/
def erase (m : PyDict κ ν) (k : κ) : PyDict κ ν :=
  m.filter (fun e => decide (e.1 ≠ k))

/-- Real Python dicts never hold a key twice. -/
def keysNodup (m : PyDict κ ν) : Prop := (m.map Prod.fst).Nodup

theorem lookup_eq_none_of_not_mem_keys {m : PyDict κ ν} {k : κ}
    (h : k ∉ m.map Prod.fst) : lookup m k = none := by
  induction m with
  | nil => rfl
  | cons e rest ih =>
    obtain ⟨k₀, v₀⟩ := e
    simp only [List.map_cons, List.mem_cons] at h
    push_neg at h
    simp only [lookup, if_neg (fun hq : k₀ = k => h.1 hq.symm)]
    exact ih h.2

theorem not_mem_keys_of_lookup_eq_none {m : PyDict κ ν} {k : κ}
    (h : lookup m k = none) : k ∉ m.map Prod.fst := by
  induction m with
  | nil => simp
  | cons e rest ih =>
    obtain ⟨k₀, v₀⟩ := e
    simp only [lookup] at h
    by_cases hk : k₀ = k
    · simp [hk] at h
    · simp only [if_neg hk] at h
      simp only [List.map_cons, List.mem_cons]
      push_neg
      exact ⟨fun hq => hk hq.symm, ih h⟩

theorem lookup_insert_self (m : PyDict κ ν) (k : κ) (v : ν) :
    lookup (insert m k v) k = some v := by
  induction m with
  | nil => simp [insert, lookup]
  | cons e rest ih =>
    obtain ⟨k₀, v₀⟩ := e
    by_cases hk : k₀ = k
    · simp [insert, hk, lookup]
    · simp [insert, hk, lookup, ih]

theorem lookup_insert_of_ne (m : PyDict κ ν) {k q : κ} (v : ν) (h : k ≠ q) :
    lookup (insert m k v) q = lookup m q := by
  induction m with
  | nil => simp [insert, lookup, h]
  | cons e rest ih =>
    obtain ⟨k₀, v₀⟩ := e
    by_cases hk : k₀ = k
    · subst hk
      simp [insert, lookup, h]
    · by_cases hq : k₀ = q
      · have hqk : ¬ q = k := by rw [← hq]; exact hk
        simp [insert, lookup, hq, hqk]
      · simp [insert, hk, lookup, hq, ih]

theorem lookup_erase_self (m : PyDict κ ν) (k : κ) :
    lookup (erase m k) k = none := by
  induction m with
  | nil => rfl
  | cons e rest ih =>
    obtain ⟨k₀, v₀⟩ := e
    by_cases hk : k₀ = k
    · simpa [erase, hk] using ih
    · simpa [erase, lookup, hk] using ih

theorem lookup_erase_of_ne (m : PyDict κ ν) {k q : κ} (h : k ≠ q) :
    lookup (erase m k) q = lookup m q := by
  induction m with
  | nil => rfl
  | cons e rest ih =>
    obtain ⟨k₀, v₀⟩ := e
    by_cases hk : k₀ = k
    · subst hk
      simpa [erase, lookup, h] using ih
    · by_cases hq : k₀ = q
      · have hqk : ¬ q = k := by rw [← hq]; exact hk
        simp [erase, lookup, hq, hqk]
      · simpa [erase, lookup, hk, hq] using ih

theorem mem_keys_insert {m : PyDict κ ν} {k q : κ} {v : ν} :
    q ∈ (insert m k v).map Prod.fst ↔ q ∈ m.map Prod.fst ∨ q = k := by
  induction m with
  | nil => simp [insert]
  | cons e rest ih =>
    obtain ⟨k₀, v₀⟩ := e
    by_cases hk : k₀ = k
    · subst hk
      simp [insert]
      tauto
    · simp [insert, hk, ih]
      tauto

theorem keysNodup_insert (m : PyDict κ ν) (k : κ) (v : ν)
    (h : keysNodup m) : keysNodup (insert m k v) := by
  induction m with
  | nil => simp [insert, keysNodup]
  | cons e rest ih =>
    obtain ⟨k₀, v₀⟩ := e
    unfold keysNodup at h ⊢
    simp only [List.map_cons, List.nodup_cons] at h
    by_cases hk : k₀ = k
    · subst hk
      have hins : insert ((k₀, v₀) :: rest) k₀ v = (k₀, v) :: rest := by
        simp [insert]
      rw [hins]
      simp only [List.map_cons, List.nodup_cons]
      exact h
    · have hins : insert ((k₀, v₀) :: rest) k v = (k₀, v₀) :: insert rest k v := by
        simp [insert, hk]
      rw [hins]
      simp only [List.map_cons, List.nodup_cons]
      constructor
      · intro hc
        rcases mem_keys_insert.mp hc with hm | he
        · exact h.1 hm
        · exact hk he
      · exact ih h.2

theorem keysNodup_erase (m : PyDict κ ν) (k : κ)
    (h : keysNodup m) : keysNodup (erase m k) := by
  unfold keysNodup at h ⊢
  exact ((List.filter_sublist m).map Prod.fst).nodup h

theorem lookup_of_mem_nodup {m : PyDict κ ν} {k : κ} {v : ν}
    (hnd : keysNodup m) (hm : (k, v) ∈ m) : lookup m k = some v := by
  induction m with
  | nil => cases hm
  | cons e rest ih =>
    obtain ⟨k₀, v₀⟩ := e
    unfold keysNodup at hnd
    simp only [List.map_cons, List.nodup_cons] at hnd
    rcases List.mem_cons.mp hm with heq | htail
    · have hk : k = k₀ ∧ v = v₀ := by
        constructor
        · exact congrArg Prod.fst heq
        · exact congrArg Prod.snd heq
      simp [lookup, hk.1, hk.2]
    · have hk : k₀ ≠ k := by
        intro hc
        exact hnd.1 (hc ▸ (List.mem_map.mpr ⟨(k, v), htail, rfl⟩))
      simp only [lookup, if_neg hk]
      exact ih hnd.2 htail

theorem lookup_decomp {m : PyDict κ ν} {k : κ} {v : ν}
    (hnd : keysNodup m) (hl : lookup m k = some v) :
    ∃ l₁ l₂, m = l₁ ++ (k, v) :: l₂ ∧ (∀ e ∈ l₁, e.1 ≠ k) ∧ (∀ e ∈ l₂, e.1 ≠ k) := by
  induction m with
  | nil => simp [lookup] at hl
  | cons e rest ih =>
    obtain ⟨k₀, v₀⟩ := e
    unfold keysNodup at hnd
    simp only [List.map_cons, List.nodup_cons] at hnd
    by_cases hk : k₀ = k
    · subst hk
      have hv : v₀ = v := by simpa [lookup] using hl
      subst hv
      refine ⟨[], rest, by simp, by simp, ?_⟩
      intro e he hc
      exact hnd.1 (hc ▸ (List.mem_map.mpr ⟨e, he, rfl⟩))
    · simp only [lookup, if_neg hk] at hl
      obtain ⟨l₁, l₂, hm, h₁, h₂⟩ := ih hnd.2 hl
      refine ⟨(k₀, v₀) :: l₁, l₂, by rw [hm]; rfl, ?_, h₂⟩
      intro e he
      rcases List.mem_cons.mp he with rfl | he'
      · exact hk
      · exact h₁ e he'

end PyDict

/-! ## Data model (the auto_restart_config dict values in src/app.py) -/

/-- One value of the `auto_restart_config` dict in src/app.py.  Keys of the
Python dict that may be absent are `Option`; reads go through the same
defaults the code passes to `.get`. -/
structure RestartPolicy where
  enabled : Option Bool
  cpu_threshold : Option ℚ
  memory_threshold_mb : Option ℚ
  queue_threshold : Option Nat
  jar_name : Option String
  restarting : Option Bool
deriving DecidableEq, Repr

/-- The empty Python dict `{}` used by `auto_restart_config.get(pid, {})`. -/
def RestartPolicy.emptyDict : RestartPolicy :=
  ⟨none, none, none, none, none, none⟩

/-- A value persisted by save_auto_restart_config: the in-memory dict after
`persistent_data.pop('restarting', None)` (src/app.py, src/config_storage.py). -/
structure PersistedPolicy where
  enabled : Option Bool
  cpu_threshold : Option ℚ
  memory_threshold_mb : Option ℚ
  queue_threshold : Option Nat
  jar_name : Option String
deriving DecidableEq, Repr

/-- `config_data.copy()` followed by `.pop('restarting', None)`. -/
def RestartPolicy.toPersisted (c : RestartPolicy) : PersistedPolicy :=
  ⟨c.enabled, c.cpu_threshold, c.memory_threshold_mb, c.queue_threshold, c.jar_name⟩

/-- The in-memory policy store `auto_restart_config` (keyed by pid). -/
abbrev ConfigStore := PyDict Nat RestartPolicy

/-- The durable store: the `auto_restart` map of monitor_config.json
(keyed by service name). -/
abbrev DurableStore := PyDict String PersistedPolicy

/-- In-memory store plus its durable mirror. -/
structure StoreState where
  mem : ConfigStore
  dur : DurableStore
deriving DecidableEq, Repr

/-- Python `a or b` on optional strings: `None` and `''` are falsy. -/
def pyOrStr (a b : Option String) : Option String :=
  match a with
  | some s => if s = "" then b else some s
  | none => b

/-- Python truthiness of `d.get('queue_threshold')`: `None` and `0` are falsy. -/
def pyTruthyNat (a : Option Nat) : Bool :=
  match a with
  | some n => decide (n ≠ 0)
  | none => false

/-! ## Configuration requests (src/app.py: configure_auto_restart,
set_queue_threshold).  A request body is a JSON dict; absent keys are `none`
and the endpoints read them with the defaults from src/constants.py.  The
service name used for durable storage is resolved from the request's
jar_name, the live process, or a pid fallback; it is passed in here already
resolved. -/

structure ConfigRequest where
  enabled : Option Bool
  cpu_threshold : Option ℚ
  memory_threshold_mb : Option ℚ
  queue_threshold : Option Nat
  jar_name : Option String
deriving DecidableEq, Repr

structure QueueThresholdRequest where
  queue_threshold : Option Nat
  jar_name : Option String
deriving DecidableEq, Repr

/-- Outcome of a configuration endpoint: HTTP 200 success or a synchronous
validation rejection (HTTP 400 with an error message). -/
inductive ConfigOutcome where
  | ok
  | rejected (msg : String)
deriving DecidableEq, Repr

def ConfigOutcome.isRejected : ConfigOutcome → Bool
  | .ok => false
  | .rejected _ => true

/-- POST /api/service/pid/auto-restart (src/app.py configure_auto_restart). -/
def configure_auto_restart (st : StoreState) (pid : Nat) (service_name : String)
    (req : ConfigRequest) : ConfigOutcome × StoreState :=
  let enabled := req.enabled.getD false
  let cpu_threshold := req.cpu_threshold.getD DEFAULT_CPU_THRESHOLD
  let memory_threshold_mb := req.memory_threshold_mb.getD DEFAULT_MEMORY_THRESHOLD_MB
  if cpu_threshold < CPU_THRESHOLD_MIN ∨ cpu_threshold > CPU_THRESHOLD_MAX then
    (.rejected "CPU threshold must be between 1 and 100", st)
  else if memory_threshold_mb < MEMORY_THRESHOLD_MIN_MB ∨
      memory_threshold_mb > MEMORY_THRESHOLD_MAX_MB then
    (.rejected "Memory threshold must be between 1 MB and 10240 MB (10 GB)", st)
  else
    let queue_threshold := req.queue_threshold.getD DEFAULT_QUEUE_THRESHOLD
    if queue_threshold < QUEUE_THRESHOLD_MIN ∨ queue_threshold > QUEUE_THRESHOLD_MAX then
      (.rejected "Queue threshold must be between 1 and 1,000,000 messages", st)
    else
      if enabled then
        let existing_config := (PyDict.lookup st.mem pid).getD RestartPolicy.emptyDict
        let config_data : RestartPolicy :=
          ⟨some true, some cpu_threshold, some memory_threshold_mb,
            some queue_threshold, pyOrStr req.jar_name existing_config.jar_name,
            some (existing_config.restarting.getD false)⟩
        (.ok, ⟨PyDict.insert st.mem pid config_data,
               PyDict.insert st.dur service_name config_data.toPersisted⟩)
      else
        let existing_config := (PyDict.lookup st.mem pid).getD RestartPolicy.emptyDict
        let existing_queue_threshold := existing_config.queue_threshold
        if (PyDict.lookup st.mem pid).isSome then
          if pyTruthyNat existing_queue_threshold then
            let reduced : RestartPolicy :=
              ⟨some false, none, none, existing_queue_threshold,
                pyOrStr req.jar_name existing_config.jar_name, some false⟩
            let persistent_data : PersistedPolicy :=
              ⟨some false, none, none, existing_queue_threshold,
                pyOrStr req.jar_name existing_config.jar_name⟩
            (.ok, ⟨PyDict.insert st.mem pid reduced,
                   PyDict.insert st.dur service_name persistent_data⟩)
          else
            (.ok, ⟨PyDict.erase st.mem pid, PyDict.erase st.dur service_name⟩)
        else
          if pyTruthyNat existing_queue_threshold then
            (.ok, st)
          else
            (.ok, ⟨st.mem, PyDict.erase st.dur service_name⟩)

/-- POST /api/service/pid/queue-threshold (src/app.py set_queue_threshold). -/
def set_queue_threshold (st : StoreState) (pid : Nat) (service_name : String)
    (req : QueueThresholdRequest) : ConfigOutcome × StoreState :=
  let queue_threshold := req.queue_threshold.getD DEFAULT_QUEUE_THRESHOLD
  if queue_threshold < QUEUE_THRESHOLD_MIN ∨ queue_threshold > QUEUE_THRESHOLD_MAX then
    (.rejected "Queue threshold must be between 1 and 1,000,000 messages", st)
  else
    let existing_config := (PyDict.lookup st.mem pid).getD RestartPolicy.emptyDict
    let config_data : RestartPolicy :=
      ⟨some (existing_config.enabled.getD false),
        some (existing_config.cpu_threshold.getD DEFAULT_CPU_THRESHOLD),
        some (existing_config.memory_threshold_mb.getD DEFAULT_MEMORY_THRESHOLD_MB),
        some queue_threshold,
        pyOrStr req.jar_name existing_config.jar_name,
        some (existing_config.restarting.getD false)⟩
    (.ok, ⟨PyDict.insert st.mem pid config_data,
           PyDict.insert st.dur service_name config_data.toPersisted⟩)

/-! ## Restart protocol (src/app.py restart_service_internal, restart_service).
Path resolution, the Controller stop result and the Controller start result
are external effects; they enter as parameters.  The trace records the
Controller calls and the cooldown sleep between them. -/

inductive ProtoStep where
  | stopCall (pid : Nat)
  | sleepDelay (seconds : Nat)
  | startCall
deriving DecidableEq, Repr

structure RestartOutcome where
  success : Bool
  new_pid : Option Nat
deriving DecidableEq, Repr

/-- restart_service_internal: stop → on failure return; on success sleep the
given cooldown, then start; report the new pid on success. -/
def restart_service_internal (pid : Nat) (delay_seconds : Nat)
    (stop_ok : Bool) (start_result : Option Nat) : RestartOutcome × List ProtoStep :=
  if ¬ stop_ok then
    (⟨false, none⟩, [.stopCall pid])
  else
    match start_result with
    | some np => (⟨true, some np⟩, [.stopCall pid, .sleepDelay delay_seconds, .startCall])
    | none => (⟨false, none⟩, [.stopCall pid, .sleepDelay delay_seconds, .startCall])

/-- POST /api/service/pid/restart (src/app.py restart_service): the manual
restart endpoint always passes delay_seconds=RESTART_DELAY_CPU_MEMORY. -/
def restart_service (pid : Nat) (stop_ok : Bool) (start_result : Option Nat) :
    RestartOutcome × List ProtoStep :=
  restart_service_internal pid RESTART_DELAY_CPU_MEMORY stop_ok start_result

/-! ## Restart-completion updates (src/app.py restart_thread and
queue_restart_thread closures inside auto_restart_monitor): what each worker
does to auto_restart_config once restart_service_internal returns. -/

/-- The store update at the end of restart_thread (CPU/memory path). -/
def restart_thread_update (mem : ConfigStore) (pid : Nat)
    (result : RestartOutcome) : ConfigStore :=
  if result.success then
    match result.new_pid with
    | some new_pid =>
      match PyDict.lookup mem pid with
      | some old_config =>
        PyDict.insert (PyDict.erase mem pid) new_pid
          { old_config with restarting := some false }
      | none => mem
    | none => mem
  else
    match PyDict.lookup mem pid with
    | some c => PyDict.insert mem pid { c with restarting := some false }
    | none => mem

/-- The store update at the end of queue_restart_thread (queue path);
`jar_name` is the service_name captured by the closure. -/
def queue_restart_thread_update (mem : ConfigStore) (pid : Nat)
    (jar_name : String) (result : RestartOutcome) : ConfigStore :=
  if result.success then
    match result.new_pid with
    | some new_pid =>
      match PyDict.lookup mem pid with
      | some old_config =>
        let m1 := PyDict.erase mem pid
        if pyTruthyNat old_config.queue_threshold then
          PyDict.insert m1 new_pid
            ⟨some (old_config.enabled.getD false), none, none,
              old_config.queue_threshold, some jar_name, some false⟩
        else m1
      | none => mem
    | none => mem
  else
    match PyDict.lookup mem pid with
    | some c => PyDict.insert mem pid { c with restarting := some false }
    | none => mem

/-! ## One evaluation cycle (src/app.py auto_restart_monitor body).
External inputs of a cycle: the filtered list of running services, the
matched queue backlog per service name (queue_message_counts, built under
the MSMQ/Windows gate), and the Process Inspector's per-pid detail view
(monitor.get_service_details).  A detected breach spawns a restart worker;
we record each spawned worker as a RestartTask carrying the breach flags
and the cooldown passed to restart_service_internal. -/

/-- A snapshot of one running service, as consumed by the cycle. -/
structure LiveService where
  pid : Nat
  service_name : String
  cpu_percent : ℚ
  memory_mb : ℚ
deriving DecidableEq, Repr

/-- One spawned restart worker: which pid, which thresholds were exceeded,
and the cooldown handed to restart_service_internal. -/
structure RestartTask where
  pid : Nat
  cpu_exceeded : Bool
  memory_exceeded : Bool
  queue_exceeded : Bool
  delay_seconds : Nat
deriving DecidableEq, Repr

/-- External inputs of one cycle. -/
structure CycleEnv where
  running_services : List LiveService
  queue_message_counts : PyDict String Nat
  details : Nat → Option LiveService
  msmq_on : Bool

/-- The FIRST phase of the cycle body: the independent MSMQ queue check over
all running services (src/app.py lines 1229-1294), one service at a time. -/
def queueCheckStep (qc : PyDict String Nat)
    (acc : ConfigStore × List RestartTask) (s : LiveService) :
    ConfigStore × List RestartTask :=
  let existing_config := (PyDict.lookup acc.1 s.pid).getD RestartPolicy.emptyDict
  if existing_config.restarting.getD false then acc
  else
    match PyDict.lookup qc s.service_name with
    | none => acc
    | some queue_message_count =>
      let queue_threshold := existing_config.queue_threshold.getD DEFAULT_QUEUE_THRESHOLD
      if queue_threshold ≤ queue_message_count then
        let mem' :=
          if (PyDict.lookup acc.1 s.pid).isSome then
            PyDict.insert acc.1 s.pid { existing_config with restarting := some true }
          else
            PyDict.insert acc.1 s.pid
              ⟨some false, none, none, some queue_threshold,
                some s.service_name, some true⟩
        (mem', acc.2 ++ [⟨s.pid, false, false, true, RESTART_DELAY_QUEUE⟩])
      else acc

/-- `cpu_exceeded = cpu_percent >= cpu_threshold` (src/app.py line 1320),
with the default from `.get`. -/
def cpuExceededAt (config : RestartPolicy) (d : LiveService) : Bool :=
  decide (config.cpu_threshold.getD DEFAULT_CPU_THRESHOLD ≤ d.cpu_percent)

/-- `memory_exceeded = memory_mb >= memory_threshold_mb` (src/app.py line 1321). -/
def memExceededAt (config : RestartPolicy) (d : LiveService) : Bool :=
  decide (config.memory_threshold_mb.getD DEFAULT_MEMORY_THRESHOLD_MB ≤ d.memory_mb)

/-- `queue_exceeded = queue_message_count >= queue_threshold` when the
service name has a matched queue, else false (src/app.py lines 1324-1330). -/
def queueExceededAt (qc : PyDict String Nat) (config : RestartPolicy)
    (d : LiveService) : Bool :=
  match PyDict.lookup qc d.service_name with
  | some cnt => decide (config.queue_threshold.getD DEFAULT_QUEUE_THRESHOLD ≤ cnt)
  | none => false

/-- The SECOND phase of the cycle body: the CPU/memory check over a snapshot
of auto_restart_config (src/app.py lines 1296-1383), one entry at a time.
The accumulator store is the live dict; the entry comes from the snapshot. -/
def cpuMemCheckStep (env : CycleEnv)
    (acc : ConfigStore × List RestartTask) (entry : Nat × RestartPolicy) :
    ConfigStore × List RestartTask :=
  let pid := entry.1
  let config := entry.2
  if ¬ (config.enabled.getD false) ∨ config.restarting.getD false then acc
  else
    match env.details pid with
    | none => (PyDict.erase acc.1 pid, acc.2)
    | some d =>
      let cpu_exceeded : Bool := cpuExceededAt config d
      let memory_exceeded : Bool := memExceededAt config d
      let queue_exceeded : Bool := queueExceededAt env.queue_message_counts config d
      if cpu_exceeded || memory_exceeded || queue_exceeded then
        let mem' :=
          match PyDict.lookup acc.1 pid with
          | some cc => PyDict.insert acc.1 pid { cc with restarting := some true }
          | none => acc.1
        (mem', acc.2 ++ [⟨pid, cpu_exceeded, memory_exceeded, queue_exceeded,
          if queue_exceeded then RESTART_DELAY_QUEUE else RESTART_DELAY_CPU_MEMORY⟩])
      else acc

/-- The whole queue phase: the fold above over all running services, gated on
MSMQ availability and a non-empty queue match map (src/app.py line 1229). -/
def queue_check_phase (env : CycleEnv) (mem : ConfigStore) :
    ConfigStore × List RestartTask :=
  if env.msmq_on ∧ env.queue_message_counts ≠ [] then
    env.running_services.foldl (queueCheckStep env.queue_message_counts) (mem, [])
  else (mem, [])

/-- One full evaluation cycle of auto_restart_monitor: the queue phase runs
under the MSMQ gate, then the CPU/memory phase iterates a snapshot of the
store taken after the queue phase. -/
def auto_restart_cycle (env : CycleEnv) (mem : ConfigStore) :
    ConfigStore × List RestartTask :=
  let p1 := queue_check_phase env mem
  let configs_to_check := p1.1
  configs_to_check.foldl (cpuMemCheckStep env) p1

/-! ## Process classification and stop (src/service_monitor.py
_is_service_process, stop_service). -/

/-- Char-list test: does `l` start with `pre`? (Python str containment
helper.) -/
def charsStartWith : List Char → List Char → Bool
  | [], _ => true
  | _ :: _, [] => false
  | c :: cs, d :: ds => decide (c = d) && charsStartWith cs ds

/-- Python `sub in s` on strings: substring containment. -/
def charsContain (sub : List Char) : List Char → Bool
  | [] => sub.isEmpty
  | d :: ds => charsStartWith sub (d :: ds) || charsContain sub ds

def strContains (s sub : String) : Bool := charsContain sub.toList s.toList

/-- Python `s.lower()`, computed on the character list. -/
def strToLower (s : String) : String := String.mk (s.toList.map Char.toLower)

/-- Python `s.endswith(suf)`. -/
def strEndsWith (s suf : String) : Bool :=
  charsStartWith suf.toList.reverse s.toList.reverse

/-- _is_service_process (src/service_monitor.py lines 37-59) applied to a
process command line.  Only cmdline[0] is lowercased; the .jar/.exe/.bat/.sh
argument tests use the raw arguments, as in the source. -/
def is_service_cmdline (cmdline : List String) : Bool :=
  match cmdline with
  | [] => false
  | exe :: _ =>
    let exe_path := strToLower exe
    ((strContains exe_path "java" || strContains exe_path "javaw") &&
      cmdline.any (fun arg => strEndsWith arg ".jar"))
    ||
    ([".exe", ".bat", ".sh"].any (fun ext =>
      strEndsWith exe_path ext || cmdline.any (fun arg => strEndsWith arg ext)))

/-- What stop_service may do to the OS process. -/
inductive StopAction where
  | terminate
  | kill
deriving DecidableEq, Repr

/-- The result dicts returned by stop_service. -/
structure StopResult where
  success : Bool
  message : Option String
  error : Option String
deriving DecidableEq, Repr

/-- An existing OS process as seen by stop_service: its command line and how
it reacts to termination requests. -/
structure ProcInfo where
  cmdline : List String
  terminates_gracefully : Bool
  kill_succeeds : Bool
deriving DecidableEq, Repr

/-- stop_service (src/service_monitor.py lines 313-361).  `none` plays the
role of psutil.NoSuchProcess.  The action trace records every termination
call issued to the process. -/
def stop_service (p : Option ProcInfo) : StopResult × List StopAction :=
  match p with
  | none => (⟨false, none, some "Process not found"⟩, [])
  | some proc =>
    if ¬ is_service_cmdline proc.cmdline then
      (⟨false, none, some "Process is not a monitored service"⟩, [])
    else if proc.terminates_gracefully then
      (⟨true, some "Service stopped gracefully", none⟩, [.terminate])
    else if proc.kill_succeeds then
      (⟨true, some "Service force stopped", none⟩, [.terminate, .kill])
    else
      (⟨false, none, some "Failed to kill process"⟩, [.terminate, .kill])

/-! ## The monitor loop's exception skeleton (src/app.py auto_restart_monitor,
while True / try / except).  Failures of the folder scan are caught inside
get_all_executables_from_folder (src/app.py lines 192-193); failures of the
MSMQ telemetry read are caught by the inner handler at lines 1155-1156;
failures of one pid's detail check are caught by the per-pid handler at
lines 1382-1383; an exception anywhere else in the body (e.g. the process
listing at line 1159) reaches the outer handler at lines 1385-1387, which
logs and sleeps AUTO_RESTART_ERROR_RETRY_INTERVAL.  The loop itself never
exits. -/

structure CycleFaults where
  folder_scan_raises : Bool
  telemetry_raises : Bool
  listing_raises : Bool
  per_service_raises : Bool
deriving DecidableEq, Repr

structure IterationOutcome where
  loop_continues : Bool
  sleeps : List Nat
  outer_handler_ran : Bool
deriving DecidableEq, Repr

/-- One iteration of the while-True loop of auto_restart_monitor: the sleeps
performed, whether the outer except handler ran, and whether the loop goes
on to the next iteration. -/
def monitor_iteration (f : CycleFaults) : IterationOutcome :=
  if f.listing_raises then
    ⟨true, [AUTO_RESTART_CHECK_INTERVAL, AUTO_RESTART_ERROR_RETRY_INTERVAL], true⟩
  else
    ⟨true, [AUTO_RESTART_CHECK_INTERVAL], false⟩

/-! ## Step lemmas for the two phases of the cycle -/

theorem queueCheckStep_cases (qc : PyDict String Nat)
    (acc : ConfigStore × List RestartTask) (s : LiveService) :
    queueCheckStep qc acc s = acc ∨
    ∃ c : RestartPolicy, c.restarting = some true ∧
      queueCheckStep qc acc s =
        (PyDict.insert acc.1 s.pid c,
          acc.2 ++ [⟨s.pid, false, false, true, RESTART_DELAY_QUEUE⟩]) := by
  simp only [queueCheckStep]
  split
  · exact Or.inl rfl
  · split
    · exact Or.inl rfl
    · split
      · right
        split
        · exact ⟨_, rfl, rfl⟩
        · exact ⟨_, rfl, rfl⟩
      · exact Or.inl rfl

theorem queueCheckStep_skip {acc : ConfigStore × List RestartTask}
    {s : LiveService} {c : RestartPolicy} (qc : PyDict String Nat)
    (hl : PyDict.lookup acc.1 s.pid = some c)
    (hr : c.restarting.getD false = true) :
    queueCheckStep qc acc s = acc := by
  simp only [queueCheckStep, hl, Option.getD_some, hr]
  simp

theorem queueCheckStep_fire {acc : ConfigStore × List RestartTask}
    {s : LiveService} {c : RestartPolicy} {qc : PyDict String Nat} {cnt : Nat}
    (hl : PyDict.lookup acc.1 s.pid = some c)
    (hr : c.restarting.getD false = false)
    (hqc : PyDict.lookup qc s.service_name = some cnt)
    (hge : c.queue_threshold.getD DEFAULT_QUEUE_THRESHOLD ≤ cnt) :
    queueCheckStep qc acc s =
      (PyDict.insert acc.1 s.pid { c with restarting := some true },
        acc.2 ++ [⟨s.pid, false, false, true, RESTART_DELAY_QUEUE⟩]) := by
  simp only [queueCheckStep, hl, Option.getD_some, hr, hqc, Bool.false_eq_true,
    if_false, Option.isSome_some, if_true, if_pos hge]

theorem queueCheckStep_nofire {acc : ConfigStore × List RestartTask}
    {s : LiveService} {c : RestartPolicy} {qc : PyDict String Nat} {cnt : Nat}
    (hl : PyDict.lookup acc.1 s.pid = some c)
    (hqc : PyDict.lookup qc s.service_name = some cnt)
    (hlt : cnt < c.queue_threshold.getD DEFAULT_QUEUE_THRESHOLD) :
    queueCheckStep qc acc s = acc := by
  simp only [queueCheckStep, hl, Option.getD_some, hqc]
  split
  · rfl
  · rw [if_neg (by omega)]

theorem queueCheckStep_nomatch {acc : ConfigStore × List RestartTask}
    {s : LiveService} {qc : PyDict String Nat}
    (hqc : PyDict.lookup qc s.service_name = none) :
    queueCheckStep qc acc s = acc := by
  simp only [queueCheckStep, hqc]
  split
  · rfl
  · rfl

theorem cpuMemCheckStep_skip {env : CycleEnv}
    {acc : ConfigStore × List RestartTask} {e : Nat × RestartPolicy}
    (h : e.2.enabled.getD false = false ∨ e.2.restarting.getD false = true) :
    cpuMemCheckStep env acc e = acc := by
  simp only [cpuMemCheckStep]
  rcases h with h | h
  · rw [if_pos (Or.inl (by simp [h]))]
  · rw [if_pos (Or.inr h)]

theorem cpuMemCheckStep_notfound {env : CycleEnv}
    {acc : ConfigStore × List RestartTask} {e : Nat × RestartPolicy}
    (hen : e.2.enabled.getD false = true)
    (hr : e.2.restarting.getD false = false)
    (hd : env.details e.1 = none) :
    cpuMemCheckStep env acc e = (PyDict.erase acc.1 e.1, acc.2) := by
  simp only [cpuMemCheckStep, hd]
  rw [if_neg (by simp [hen, hr])]

theorem cpuMemCheckStep_cases (env : CycleEnv)
    (acc : ConfigStore × List RestartTask) (e : Nat × RestartPolicy) :
    cpuMemCheckStep env acc e = acc ∨
    cpuMemCheckStep env acc e = (PyDict.erase acc.1 e.1, acc.2) ∨
    ∃ (mem' : ConfigStore) (t : RestartTask), t.pid = e.1 ∧
      (t.cpu_exceeded || t.memory_exceeded || t.queue_exceeded) = true ∧
      t.delay_seconds =
        (if t.queue_exceeded then RESTART_DELAY_QUEUE else RESTART_DELAY_CPU_MEMORY) ∧
      (∀ q, q ≠ e.1 → PyDict.lookup mem' q = PyDict.lookup acc.1 q) ∧
      (PyDict.keysNodup acc.1 → PyDict.keysNodup mem') ∧
      cpuMemCheckStep env acc e = (mem', acc.2 ++ [t]) := by
  simp only [cpuMemCheckStep]
  split
  · exact Or.inl rfl
  · split
    · exact Or.inr (Or.inl rfl)
    · rename_i hguard d hd
      split
      · rename_i hfire
        right; right
        refine ⟨_, _, rfl, ?_, rfl, ?_, ?_, rfl⟩
        · exact hfire
        · intro q hq
          split
          · exact PyDict.lookup_insert_of_ne _ _ (fun hc => hq hc.symm)
          · rfl
        · intro hnd
          split
          · exact PyDict.keysNodup_insert _ _ _ hnd
          · exact hnd
      · exact Or.inl rfl

/-! ## Fold lemmas for the two phases -/

theorem queue_fold_tasks_mono (qc : PyDict String Nat) (l : List LiveService)
    (acc : ConfigStore × List RestartTask) {t : RestartTask} (ht : t ∈ acc.2) :
    t ∈ (l.foldl (queueCheckStep qc) acc).2 := by
  induction l generalizing acc with
  | nil => exact ht
  | cons s rest ih =>
    simp only [List.foldl_cons]
    apply ih
    rcases queueCheckStep_cases qc acc s with h | ⟨c, _, h⟩
    · rw [h]; exact ht
    · rw [h]; exact List.mem_append_left _ ht

theorem queue_fold_nodup (qc : PyDict String Nat) (l : List LiveService)
    (acc : ConfigStore × List RestartTask) (h : PyDict.keysNodup acc.1) :
    PyDict.keysNodup (l.foldl (queueCheckStep qc) acc).1 := by
  induction l generalizing acc with
  | nil => exact h
  | cons s rest ih =>
    simp only [List.foldl_cons]
    apply ih
    rcases queueCheckStep_cases qc acc s with hc | ⟨c, _, hc⟩
    · rw [hc]; exact h
    · rw [hc]; exact PyDict.keysNodup_insert _ _ _ h

theorem queue_fold_task_shape (qc : PyDict String Nat) (l : List LiveService)
    (acc : ConfigStore × List RestartTask) :
    ∀ t ∈ (l.foldl (queueCheckStep qc) acc).2, t ∈ acc.2 ∨
      (t.cpu_exceeded = false ∧ t.memory_exceeded = false ∧ t.queue_exceeded = true ∧
        t.delay_seconds = RESTART_DELAY_QUEUE ∧ ∃ s ∈ l, s.pid = t.pid) := by
  induction l generalizing acc with
  | nil => exact fun t ht => Or.inl ht
  | cons s rest ih =>
    intro t ht
    simp only [List.foldl_cons] at ht
    rcases ih (queueCheckStep qc acc s) t ht with hin | ⟨h1, h2, h3, h4, s', hs', hp⟩
    · rcases queueCheckStep_cases qc acc s with hc | ⟨c, _, hc⟩
      · rw [hc] at hin; exact Or.inl hin
      · rw [hc] at hin
        rcases List.mem_append.mp hin with hin | hin
        · exact Or.inl hin
        · right
          rcases List.mem_singleton.mp hin with rfl
          exact ⟨rfl, rfl, rfl, rfl, s, List.mem_cons_self s rest, rfl⟩
    · exact Or.inr ⟨h1, h2, h3, h4, s', List.mem_cons_of_mem s hs', hp⟩

theorem queue_fold_skipped (qc : PyDict String Nat) (l : List LiveService)
    (acc : ConfigStore × List RestartTask) {p : Nat}
    (hp : ∀ s ∈ l, s.pid = p →
      ∃ c : RestartPolicy, PyDict.lookup acc.1 p = some c ∧ c.restarting.getD false = true) :
    PyDict.lookup (l.foldl (queueCheckStep qc) acc).1 p = PyDict.lookup acc.1 p ∧
    ∀ t ∈ (l.foldl (queueCheckStep qc) acc).2, t ∈ acc.2 ∨ t.pid ≠ p := by
  induction l generalizing acc with
  | nil => exact ⟨rfl, fun t ht => Or.inl ht⟩
  | cons s rest ih =>
    simp only [List.foldl_cons]
    by_cases hsp : s.pid = p
    · obtain ⟨c, hc, hr⟩ := hp s (List.mem_cons_self s rest) hsp
      have hskip : queueCheckStep qc acc s = acc :=
        queueCheckStep_skip qc (hsp ▸ hc) hr
      rw [hskip]
      exact ih acc (fun s' hs' hp' => hp s' (List.mem_cons_of_mem s hs') hp')
    · rcases queueCheckStep_cases qc acc s with hc | ⟨c, _, hc⟩
      · rw [hc]
        exact ih acc (fun s' hs' hp' => hp s' (List.mem_cons_of_mem s hs') hp')
      · rw [hc]
        have hlp : PyDict.lookup (PyDict.insert acc.1 s.pid c) p = PyDict.lookup acc.1 p :=
          PyDict.lookup_insert_of_ne _ _ hsp
        have := ih (PyDict.insert acc.1 s.pid c,
          acc.2 ++ [⟨s.pid, false, false, true, RESTART_DELAY_QUEUE⟩])
          (fun s' hs' hp' => by
            obtain ⟨c', hc', hr'⟩ := hp s' (List.mem_cons_of_mem s hs') hp'
            exact ⟨c', hlp ▸ hc', hr'⟩)
        refine ⟨this.1.trans hlp, ?_⟩
        intro t ht
        rcases this.2 t ht with hin | hne
        · rcases List.mem_append.mp hin with hin | hin
          · exact Or.inl hin
          · rcases List.mem_singleton.mp hin with rfl
            exact Or.inr hsp
        · exact Or.inr hne

theorem cpuMem_fold_tasks_mono (env : CycleEnv) (l : List (Nat × RestartPolicy))
    (acc : ConfigStore × List RestartTask) {t : RestartTask} (ht : t ∈ acc.2) :
    t ∈ (l.foldl (cpuMemCheckStep env) acc).2 := by
  induction l generalizing acc with
  | nil => exact ht
  | cons e rest ih =>
    simp only [List.foldl_cons]
    apply ih
    rcases cpuMemCheckStep_cases env acc e with h | h | ⟨m', t', _, _, _, _, _, h⟩
    · rw [h]; exact ht
    · rw [h]; exact ht
    · rw [h]; exact List.mem_append_left _ ht

theorem cpuMem_fold_nodup (env : CycleEnv) (l : List (Nat × RestartPolicy))
    (acc : ConfigStore × List RestartTask) (h : PyDict.keysNodup acc.1) :
    PyDict.keysNodup (l.foldl (cpuMemCheckStep env) acc).1 := by
  induction l generalizing acc with
  | nil => exact h
  | cons e rest ih =>
    simp only [List.foldl_cons]
    apply ih
    rcases cpuMemCheckStep_cases env acc e with hc | hc | ⟨m', t', _, _, _, _, hnd, hc⟩
    · rw [hc]; exact h
    · rw [hc]; exact PyDict.keysNodup_erase _ _ h
    · rw [hc]; exact hnd h

theorem cpuMem_fold_task_shape (env : CycleEnv) (l : List (Nat × RestartPolicy))
    (acc : ConfigStore × List RestartTask) :
    ∀ t ∈ (l.foldl (cpuMemCheckStep env) acc).2, t ∈ acc.2 ∨
      ((t.cpu_exceeded || t.memory_exceeded || t.queue_exceeded) = true ∧
        t.delay_seconds =
          (if t.queue_exceeded then RESTART_DELAY_QUEUE else RESTART_DELAY_CPU_MEMORY) ∧
        ∃ e ∈ l, e.1 = t.pid) := by
  induction l generalizing acc with
  | nil => exact fun t ht => Or.inl ht
  | cons e rest ih =>
    intro t ht
    simp only [List.foldl_cons] at ht
    rcases ih (cpuMemCheckStep env acc e) t ht with hin | ⟨h1, h2, e', he', hp⟩
    · rcases cpuMemCheckStep_cases env acc e with hc | hc | ⟨m', t', hpid, hcause, hdel, _, _, hc⟩
      · rw [hc] at hin; exact Or.inl hin
      · rw [hc] at hin; exact Or.inl hin
      · rw [hc] at hin
        rcases List.mem_append.mp hin with hin | hin
        · exact Or.inl hin
        · rcases List.mem_singleton.mp hin with rfl
          exact Or.inr ⟨hcause, hdel, e, List.mem_cons_self e rest, hpid.symm⟩
    · exact Or.inr ⟨h1, h2, e', List.mem_cons_of_mem e he', hp⟩

theorem cpuMem_fold_skipped (env : CycleEnv) (l : List (Nat × RestartPolicy))
    (acc : ConfigStore × List RestartTask) {p : Nat}
    (hp : ∀ e ∈ l, e.1 = p →
      e.2.enabled.getD false = false ∨ e.2.restarting.getD false = true) :
    PyDict.lookup (l.foldl (cpuMemCheckStep env) acc).1 p = PyDict.lookup acc.1 p ∧
    ∀ t ∈ (l.foldl (cpuMemCheckStep env) acc).2, t ∈ acc.2 ∨ t.pid ≠ p := by
  induction l generalizing acc with
  | nil => exact ⟨rfl, fun t ht => Or.inl ht⟩
  | cons e rest ih =>
    simp only [List.foldl_cons]
    by_cases hep : e.1 = p
    · have hskip : cpuMemCheckStep env acc e = acc :=
        cpuMemCheckStep_skip (hp e (List.mem_cons_self e rest) hep)
      rw [hskip]
      exact ih acc (fun e' he' hp' => hp e' (List.mem_cons_of_mem e he') hp')
    · have ihr := fun acc' => ih acc' (fun e' he' hp' => hp e' (List.mem_cons_of_mem e he') hp')
      rcases cpuMemCheckStep_cases env acc e with hc | hc | ⟨m', t', hpid, _, _, hloc, _, hc⟩
      · rw [hc]; exact ihr acc
      · rw [hc]
        have := ihr (PyDict.erase acc.1 e.1, acc.2)
        refine ⟨this.1.trans (PyDict.lookup_erase_of_ne _ hep), this.2⟩
      · rw [hc]
        have := ihr (m', acc.2 ++ [t'])
        refine ⟨this.1.trans (hloc p (fun hq => hep hq.symm)), ?_⟩
        intro t ht
        rcases this.2 t ht with hin | hne
        · rcases List.mem_append.mp hin with hin | hin
          · exact Or.inl hin
          · rcases List.mem_singleton.mp hin with rfl
            exact Or.inr (hpid ▸ hep)
        · exact Or.inr hne

theorem cpuMemCheckStep_fires {env : CycleEnv}
    {acc : ConfigStore × List RestartTask} {e : Nat × RestartPolicy} {d : LiveService}
    (hen : e.2.enabled.getD false = true)
    (hr : e.2.restarting.getD false = false)
    (hd : env.details e.1 = some d)
    (hcond : (cpuExceededAt e.2 d || memExceededAt e.2 d ||
      queueExceededAt env.queue_message_counts e.2 d) = true) :
    cpuMemCheckStep env acc e =
      ((match PyDict.lookup acc.1 e.1 with
        | some cc => PyDict.insert acc.1 e.1 { cc with restarting := some true }
        | none => acc.1),
       acc.2 ++ [⟨e.1, cpuExceededAt e.2 d, memExceededAt e.2 d,
         queueExceededAt env.queue_message_counts e.2 d,
         if queueExceededAt env.queue_message_counts e.2 d then RESTART_DELAY_QUEUE
         else RESTART_DELAY_CPU_MEMORY⟩]) := by
  simp only [cpuMemCheckStep, hd]
  rw [if_neg (by simp [hen, hr]), if_pos hcond]

theorem cpuMemCheckStep_nofire {env : CycleEnv}
    {acc : ConfigStore × List RestartTask} {e : Nat × RestartPolicy} {d : LiveService}
    (hd : env.details e.1 = some d)
    (hcond : (cpuExceededAt e.2 d || memExceededAt e.2 d ||
      queueExceededAt env.queue_message_counts e.2 d) = false) :
    cpuMemCheckStep env acc e = acc := by
  simp only [cpuMemCheckStep, hd]
  split
  · rfl
  · rw [if_neg (by simp [hcond])]

/-! ## Queue-phase wrapper lemmas -/

theorem queue_check_phase_task_shape (env : CycleEnv) (mem : ConfigStore) :
    ∀ t ∈ (queue_check_phase env mem).2,
      t.cpu_exceeded = false ∧ t.memory_exceeded = false ∧ t.queue_exceeded = true ∧
      t.delay_seconds = RESTART_DELAY_QUEUE ∧
      ∃ s ∈ env.running_services, s.pid = t.pid := by
  intro t ht
  unfold queue_check_phase at ht
  split at ht
  · rcases queue_fold_task_shape _ _ _ t ht with hin | h
    · cases hin
    · exact h
  · cases ht

theorem queue_check_phase_nodup (env : CycleEnv) (mem : ConfigStore)
    (h : PyDict.keysNodup mem) : PyDict.keysNodup (queue_check_phase env mem).1 := by
  unfold queue_check_phase
  split
  · exact queue_fold_nodup _ _ _ h
  · exact h

theorem queue_check_phase_skipped (env : CycleEnv) (mem : ConfigStore)
    {pid : Nat} {c : RestartPolicy}
    (hc : PyDict.lookup mem pid = some c)
    (hr : c.restarting.getD false = true) :
    PyDict.lookup (queue_check_phase env mem).1 pid = some c ∧
    ∀ t ∈ (queue_check_phase env mem).2, t.pid ≠ pid := by
  unfold queue_check_phase
  split
  · have h := queue_fold_skipped env.queue_message_counts env.running_services
      (mem, []) (fun s _ _ => ⟨c, hc, hr⟩)
    refine ⟨h.1.trans hc, ?_⟩
    intro t ht
    rcases h.2 t ht with hin | hne
    · cases hin
    · exact hne
  · exact ⟨hc, by intro t ht; cases ht⟩

theorem queue_check_phase_dead_pid (env : CycleEnv) (mem : ConfigStore)
    {pid : Nat} (hlive : ∀ s ∈ env.running_services, s.pid ≠ pid) :
    PyDict.lookup (queue_check_phase env mem).1 pid = PyDict.lookup mem pid ∧
    ∀ t ∈ (queue_check_phase env mem).2, t.pid ≠ pid := by
  unfold queue_check_phase
  split
  · have hp : ∀ s ∈ env.running_services, s.pid = pid →
        ∃ c : RestartPolicy, PyDict.lookup (mem, ([] : List RestartTask)).1 pid = some c ∧
          c.restarting.getD false = true :=
      fun s hs hpe => absurd hpe (hlive s hs)
    have h := queue_fold_skipped env.queue_message_counts env.running_services
      (mem, []) hp
    refine ⟨h.1, ?_⟩
    intro t ht
    rcases h.2 t ht with hin | hne
    · cases hin
    · exact hne
  · exact ⟨rfl, by intro t ht; cases ht⟩

/-! ## Invariant lemmas tracking one pid through the queue phase -/

theorem queue_fold_invariant (qc : PyDict String Nat) {dname : String}
    {pid : Nat} {c : RestartPolicy} (hr : c.restarting.getD false = false)
    {qEx : Bool}
    (hqEx : qEx = (match PyDict.lookup qc dname with
                   | some cnt => decide (c.queue_threshold.getD DEFAULT_QUEUE_THRESHOLD ≤ cnt)
                   | none => false)) :
    ∀ (l : List LiveService),
      (∀ s ∈ l, s.pid = pid → s.service_name = dname) →
    ∀ (acc : ConfigStore × List RestartTask),
      ((∃ t ∈ acc.2, t.pid = pid) → qEx = true ∧
        PyDict.lookup acc.1 pid = some { c with restarting := some true }) →
      (¬ (∃ t ∈ acc.2, t.pid = pid) → PyDict.lookup acc.1 pid = some c) →
    ((∃ t ∈ (l.foldl (queueCheckStep qc) acc).2, t.pid = pid) → qEx = true ∧
      PyDict.lookup (l.foldl (queueCheckStep qc) acc).1 pid =
        some { c with restarting := some true }) ∧
    (¬ (∃ t ∈ (l.foldl (queueCheckStep qc) acc).2, t.pid = pid) →
      PyDict.lookup (l.foldl (queueCheckStep qc) acc).1 pid = some c) := by
  intro l
  induction l with
  | nil => exact fun _ acc h₁ h₂ => ⟨h₁, h₂⟩
  | cons s rest ih =>
    intro huniq acc hInv₁ hInv₂
    simp only [List.foldl_cons]
    have huniq' : ∀ s' ∈ rest, s'.pid = pid → s'.service_name = dname :=
      fun s' hs' => huniq s' (List.mem_cons_of_mem s hs')
    by_cases hsp : s.pid = pid
    · by_cases hex : ∃ t ∈ acc.2, t.pid = pid
      · obtain ⟨hq, hm⟩ := hInv₁ hex
        have hskip : queueCheckStep qc acc s = acc :=
          queueCheckStep_skip qc (by rw [hsp]; exact hm) (by simp)
        rw [hskip]
        exact ih huniq' acc hInv₁ hInv₂
      · have hcl := hInv₂ hex
        have hname : s.service_name = dname := huniq s (List.mem_cons_self s rest) hsp
        cases hqc : PyDict.lookup qc s.service_name with
        | none =>
          rw [queueCheckStep_nomatch hqc]
          exact ih huniq' acc hInv₁ hInv₂
        | some cnt =>
          by_cases hge : c.queue_threshold.getD DEFAULT_QUEUE_THRESHOLD ≤ cnt
          · have hfire := queueCheckStep_fire (by rw [hsp]; exact hcl) hr hqc hge
            rw [hfire]
            have hqcd : PyDict.lookup qc dname = some cnt := by
              rw [← hname]; exact hqc
            have hqEx' : qEx = true := by
              rw [hqEx, hqcd]
              exact decide_eq_true hge
            apply ih huniq'
            · intro _
              refine ⟨hqEx', ?_⟩
              rw [← hsp]
              exact PyDict.lookup_insert_self _ _ _
            · intro hne
              exact absurd ⟨⟨s.pid, false, false, true, RESTART_DELAY_QUEUE⟩,
                List.mem_append_right _ (List.mem_singleton_self _), hsp⟩ hne
          · rw [queueCheckStep_nofire (by rw [hsp]; exact hcl) hqc (by omega)]
            exact ih huniq' acc hInv₁ hInv₂
    · rcases queueCheckStep_cases qc acc s with hcs | ⟨c', _, hcs⟩
      · rw [hcs]; exact ih huniq' acc hInv₁ hInv₂
      · rw [hcs]
        have hlp : ∀ v, PyDict.lookup (PyDict.insert acc.1 s.pid c') pid = some v →
            True := fun _ _ => trivial
        have hloc : PyDict.lookup (PyDict.insert acc.1 s.pid c') pid =
            PyDict.lookup acc.1 pid := PyDict.lookup_insert_of_ne _ _ hsp
        apply ih huniq'
        · intro hex
          obtain ⟨t, ht, htp⟩ := hex
          rcases List.mem_append.mp ht with hin | hin
          · obtain ⟨hq, hm⟩ := hInv₁ ⟨t, hin, htp⟩
            exact ⟨hq, hloc.trans hm⟩
          · rcases List.mem_singleton.mp hin with rfl
            exact absurd htp hsp
        · intro hne
          have hne' : ¬ ∃ t ∈ acc.2, t.pid = pid := by
            intro ⟨t, ht, htp⟩
            exact hne ⟨t, List.mem_append_left _ ht, htp⟩
          exact hloc.trans (hInv₂ hne')

theorem queue_fold_fires (qc : PyDict String Nat) {pid : Nat} {c : RestartPolicy}
    {cnt : Nat} {dname : String} {s0 : LiveService}
    (hr : c.restarting.getD false = false)
    (hqc : PyDict.lookup qc dname = some cnt)
    (hge : c.queue_threshold.getD DEFAULT_QUEUE_THRESHOLD ≤ cnt)
    (hs0p : s0.pid = pid) :
    ∀ (l : List LiveService), s0 ∈ l →
      (∀ s ∈ l, s.pid = pid → s.service_name = dname) →
    ∀ (acc : ConfigStore × List RestartTask),
      ((∃ t ∈ acc.2, t.pid = pid) ∨ PyDict.lookup acc.1 pid = some c) →
    ∃ t ∈ (l.foldl (queueCheckStep qc) acc).2, t.pid = pid := by
  intro l
  induction l with
  | nil => intro h; cases h
  | cons s rest ih =>
    intro hs0 huniq acc hacc
    simp only [List.foldl_cons]
    rcases hacc with hex | hcl
    · obtain ⟨t, ht, htp⟩ := hex
      have ht' : t ∈ (queueCheckStep qc acc s).2 := by
        rcases queueCheckStep_cases qc acc s with hcs | ⟨c', _, hcs⟩
        · rw [hcs]; exact ht
        · rw [hcs]; exact List.mem_append_left _ ht
      exact ⟨t, queue_fold_tasks_mono qc rest _ ht', htp⟩
    · by_cases hsp : s.pid = pid
      · have hname : s.service_name = dname := huniq s (List.mem_cons_self s rest) hsp
        have hqcs : PyDict.lookup qc s.service_name = some cnt := by
          rw [hname]; exact hqc
        have hfire := queueCheckStep_fire (by rw [hsp]; exact hcl) hr hqcs hge
        rw [hfire]
        exact ⟨⟨s.pid, false, false, true, RESTART_DELAY_QUEUE⟩,
          queue_fold_tasks_mono qc rest _
            (List.mem_append_right _ (List.mem_singleton_self _)), hsp⟩
      · have hs0r : s0 ∈ rest := by
          rcases List.mem_cons.mp hs0 with heq | h
          · exact absurd (heq ▸ hs0p) hsp
          · exact h
        apply ih hs0r (fun s' hs' => huniq s' (List.mem_cons_of_mem s hs'))
        rcases queueCheckStep_cases qc acc s with hcs | ⟨c', _, hcs⟩
        · rw [hcs]; exact Or.inr hcl
        · rw [hcs]
          exact Or.inr ((PyDict.lookup_insert_of_ne _ _ hsp).trans hcl)

theorem cpuMem_fold_pid_task_cause (env : CycleEnv) {pid : Nat} {c : RestartPolicy}
    {d : LiveService} (hd : env.details pid = some d) :
    ∀ (l : List (Nat × RestartPolicy)),
      (∀ e ∈ l, e.1 = pid → e.2 = c ∨
        (e.2.enabled.getD false = false ∨ e.2.restarting.getD false = true)) →
    ∀ (acc : ConfigStore × List RestartTask),
    ∀ t ∈ (l.foldl (cpuMemCheckStep env) acc).2, t ∈ acc.2 ∨ t.pid ≠ pid ∨
      ((c.enabled.getD false && cpuExceededAt c d) ||
       (c.enabled.getD false && memExceededAt c d) ||
       queueExceededAt env.queue_message_counts c d) = true := by
  intro l
  induction l with
  | nil => exact fun _ acc t ht => Or.inl ht
  | cons e rest ih =>
    intro hl acc t ht
    simp only [List.foldl_cons] at ht
    have hrest := ih (fun e' he' => hl e' (List.mem_cons_of_mem e he'))
    rcases hrest (cpuMemCheckStep env acc e) t ht with hin | h | h
    · by_cases hep : e.1 = pid
      · rcases hl e (List.mem_cons_self e rest) hep with hec | hskip
        · cases hen : c.enabled.getD false with
          | false =>
            rw [cpuMemCheckStep_skip (Or.inl (by rw [hec]; exact hen))] at hin
            exact Or.inl hin
          | true =>
            cases hres : c.restarting.getD false with
            | true =>
              rw [cpuMemCheckStep_skip (Or.inr (by rw [hec]; exact hres))] at hin
              exact Or.inl hin
            | false =>
              cases hcond : (cpuExceededAt c d || memExceededAt c d ||
                  queueExceededAt env.queue_message_counts c d) with
              | false =>
                have hde : env.details e.1 = some d := by rw [hep]; exact hd
                have hce : (cpuExceededAt e.2 d || memExceededAt e.2 d ||
                    queueExceededAt env.queue_message_counts e.2 d) = false := by
                  rw [hec]; exact hcond
                rw [cpuMemCheckStep_nofire hde hce] at hin
                exact Or.inl hin
              | true =>
                right; right
                simpa only [hen, Bool.true_and] using hcond
        · rw [cpuMemCheckStep_skip hskip] at hin
          exact Or.inl hin
      · rcases cpuMemCheckStep_cases env acc e with hcs | hcs | ⟨m', t', hpid, _, _, _, _, hcs⟩
        · rw [hcs] at hin; exact Or.inl hin
        · rw [hcs] at hin; exact Or.inl hin
        · rw [hcs] at hin
          rcases List.mem_append.mp hin with hin | hin
          · exact Or.inl hin
          · rcases List.mem_singleton.mp hin with rfl
            exact Or.inr (Or.inl (hpid ▸ hep))
    · exact Or.inr (Or.inl h)
    · exact Or.inr (Or.inr h)

/-! ## Claim theorems -/

/-- C7: For every restart, the cooldown between Controller.stop and
Controller.start is determined by the breach cause class: a restart whose
cause includes a queue-threshold breach uses the shorter queue-class delay
(RESTART_DELAY_QUEUE = 60 s), a restart caused only by CPU and/or memory
breach uses the longer delay (RESTART_DELAY_CPU_MEMORY = 120 s), and a
manual restart through the /restart endpoint always uses
RESTART_DELAY_CPU_MEMORY. -/
theorem restart_delay_matches_cause (env : CycleEnv) (mem : ConfigStore)
    (t : RestartTask) (ht : t ∈ (auto_restart_cycle env mem).2) :
    ((t.queue_exceeded = true → t.delay_seconds = RESTART_DELAY_QUEUE) ∧
     (t.queue_exceeded = false → t.delay_seconds = RESTART_DELAY_CPU_MEMORY) ∧
     (t.cpu_exceeded || t.memory_exceeded || t.queue_exceeded) = true) ∧
    ∀ (pid : Nat) (stop_ok : Bool) (start_result : Option Nat) (n : Nat),
      ProtoStep.sleepDelay n ∈ (restart_service pid stop_ok start_result).2 →
      n = RESTART_DELAY_CPU_MEMORY := by
  constructor
  · simp only [auto_restart_cycle] at ht
    rcases cpuMem_fold_task_shape env _ _ t ht with hin | ⟨hcause, hdel, _⟩
    · obtain ⟨h1, h2, h3, h4, _⟩ := queue_check_phase_task_shape env mem t hin
      refine ⟨fun _ => h4, fun hq => ?_, by rw [h3]; simp⟩
      rw [h3] at hq
      cases hq
    · refine ⟨fun hq => ?_, fun hq => ?_, hcause⟩
      · simp [hdel, hq]
      · simp [hdel, hq]
  · intro pid stop_ok start_result n hn
    unfold restart_service restart_service_internal at hn
    split at hn
    · simp at hn
    · split at hn
      · simp at hn
        exact hn
      · simp at hn
        exact hn

/-- C2: For every pid whose policy entry has restarting = true at the start
of an evaluation cycle, that cycle skips the pid entirely: no restart worker
is spawned for it (so neither Controller.stop nor Controller.start is
invoked for it) on either the independent queue-check path or the
CPU/memory-check path, and its entry is left untouched. -/
theorem restarting_pid_skipped (env : CycleEnv) (mem : ConfigStore) (pid : Nat)
    (c : RestartPolicy) (hnd : PyDict.keysNodup mem)
    (hc : PyDict.lookup mem pid = some c)
    (hr : c.restarting.getD false = true) :
    PyDict.lookup (auto_restart_cycle env mem).1 pid = some c ∧
    ∀ t ∈ (auto_restart_cycle env mem).2, t.pid ≠ pid := by
  simp only [auto_restart_cycle]
  have h1 := queue_check_phase_skipped env mem hc hr
  have hnd1 := queue_check_phase_nodup env mem hnd
  have hp : ∀ e ∈ (queue_check_phase env mem).1, e.1 = pid →
      e.2.enabled.getD false = false ∨ e.2.restarting.getD false = true := by
    intro e he hep
    right
    have he2 : (e.1, e.2) = e := rfl
    have hme : (pid, e.2) ∈ (queue_check_phase env mem).1 := by
      rw [← hep, he2]
      exact he
    have hle := PyDict.lookup_of_mem_nodup hnd1 hme
    have hec : e.2 = c := by
      have := hle.symm.trans h1.1
      exact Option.some.inj this
    rw [hec]
    exact hr
  have h2 := cpuMem_fold_skipped env (queue_check_phase env mem).1
    (queue_check_phase env mem) hp
  refine ⟨h2.1.trans h1.1, ?_⟩
  intro t ht
  rcases h2.2 t ht with hin | hne
  · exact h1.2 t hin
  · exact hne

/-- C9: For every restart protocol run in which Controller.stop succeeds but
Controller.start then fails (the worker sees a failed result), the old pid's
policy entry remains with restarting cleared to false, no entry is created
for any other pid, and all other entries are unchanged; this holds for both
the CPU/memory worker and the queue worker. -/
theorem failed_start_clears_restarting (mem : ConfigStore) (pid : Nat)
    (c : RestartPolicy) (jar : String) (r : RestartOutcome)
    (hc : PyDict.lookup mem pid = some c) (hr : r.success = false) :
    (PyDict.lookup (restart_thread_update mem pid r) pid =
        some { c with restarting := some false } ∧
      ∀ q, q ≠ pid → PyDict.lookup (restart_thread_update mem pid r) q =
        PyDict.lookup mem q) ∧
    (PyDict.lookup (queue_restart_thread_update mem pid jar r) pid =
        some { c with restarting := some false } ∧
      ∀ q, q ≠ pid → PyDict.lookup (queue_restart_thread_update mem pid jar r) q =
        PyDict.lookup mem q) := by
  have h1 : restart_thread_update mem pid r =
      PyDict.insert mem pid { c with restarting := some false } := by
    unfold restart_thread_update
    rw [if_neg (by simp [hr]), hc]
  have h2 : queue_restart_thread_update mem pid jar r =
      PyDict.insert mem pid { c with restarting := some false } := by
    unfold queue_restart_thread_update
    rw [if_neg (by simp [hr]), hc]
  rw [h1, h2]
  exact ⟨⟨PyDict.lookup_insert_self _ _ _,
      fun q hq => PyDict.lookup_insert_of_ne _ _ (fun hc' => hq hc'.symm)⟩,
    ⟨PyDict.lookup_insert_self _ _ _,
      fun q hq => PyDict.lookup_insert_of_ne _ _ (fun hc' => hq hc'.symm)⟩⟩

/-- C1 counterexample: on the queue-triggered path the migrated entry does
NOT keep the cpu/memory threshold fields.  Concrete run: pid 7 holds a full
policy (cpu 90, memory 2000, queue 500); the queue worker succeeds with new
pid 8; the new entry exists with restarting = false and the same
queue_threshold, but its cpu_threshold and memory_threshold_mb keys are
gone (the old entry had cpu_threshold 90). -/
theorem queue_migration_drops_thresholds :
    PyDict.lookup (queue_restart_thread_update
        [(7, ⟨some true, some 90, some 2000, some 500, some "svc.jar", some true⟩)]
        7 "svc.jar" ⟨true, some 8⟩) 8 =
      some ⟨some true, none, none, some 500, some "svc.jar", some false⟩ ∧
    PyDict.lookup (queue_restart_thread_update
        [(7, ⟨some true, some 90, some 2000, some 500, some "svc.jar", some true⟩)]
        7 "svc.jar" ⟨true, some 8⟩) 7 = none ∧
    (⟨some true, none, none, some 500, some "svc.jar", some false⟩ :
        RestartPolicy).cpu_threshold ≠
      (⟨some true, some 90, some 2000, some 500, some "svc.jar", some true⟩ :
        RestartPolicy).cpu_threshold := by
  refine ⟨by decide, by decide, by decide⟩

/-- C1 (amended): after a successful restart (a new pid is returned) the old
pid's entry is removed and the new pid's entry exists with restarting =
false; on the CPU/memory path the whole policy (all threshold fields
included) is carried over unchanged, while on the queue path only enabled,
queue_threshold and jar_name are carried: cpu_threshold and
memory_threshold_mb are dropped from the migrated entry. -/
theorem successful_restart_migrates_policy (mem : ConfigStore) (pid np : Nat)
    (c : RestartPolicy) (jar : String)
    (hc : PyDict.lookup mem pid = some c) (hnp : np ≠ pid) :
    (PyDict.lookup (restart_thread_update mem pid ⟨true, some np⟩) pid = none ∧
      PyDict.lookup (restart_thread_update mem pid ⟨true, some np⟩) np =
        some { c with restarting := some false }) ∧
    (pyTruthyNat c.queue_threshold = true →
      PyDict.lookup (queue_restart_thread_update mem pid jar ⟨true, some np⟩) pid = none ∧
      PyDict.lookup (queue_restart_thread_update mem pid jar ⟨true, some np⟩) np =
        some ⟨some (c.enabled.getD false), none, none, c.queue_threshold,
          some jar, some false⟩) := by
  constructor
  · have h : restart_thread_update mem pid ⟨true, some np⟩ =
        PyDict.insert (PyDict.erase mem pid) np { c with restarting := some false } := by
      unfold restart_thread_update
      simp only [hc, if_true]
    rw [h]
    exact ⟨(PyDict.lookup_insert_of_ne _ _ hnp).trans (PyDict.lookup_erase_self _ _),
      PyDict.lookup_insert_self _ _ _⟩
  · intro hq
    have h : queue_restart_thread_update mem pid jar ⟨true, some np⟩ =
        PyDict.insert (PyDict.erase mem pid) np
          ⟨some (c.enabled.getD false), none, none, c.queue_threshold,
            some jar, some false⟩ := by
      unfold queue_restart_thread_update
      simp only [hc, hq]
      rfl
    rw [h]
    exact ⟨(PyDict.lookup_insert_of_ne _ _ hnp).trans (PyDict.lookup_erase_self _ _),
      PyDict.lookup_insert_self _ _ _⟩

/-- C1 witness: the amended migration at a concrete store. -/
theorem successful_restart_migrates_policy_witness :
    PyDict.lookup (restart_thread_update
        [(7, ⟨some true, some 90, some 2000, some 500, some "w.jar", some true⟩)]
        7 ⟨true, some 9⟩) 7 = none ∧
    PyDict.lookup (restart_thread_update
        [(7, ⟨some true, some 90, some 2000, some 500, some "w.jar", some true⟩)]
        7 ⟨true, some 9⟩) 9 =
      some ⟨some true, some 90, some 2000, some 500, some "w.jar", some false⟩ := by
  have h := successful_restart_migrates_policy
    [(7, ⟨some true, some 90, some 2000, some 500, some "w.jar", some true⟩)]
    7 9 ⟨some true, some 90, some 2000, some 500, some "w.jar", some true⟩
    "w.jar" (by decide) (by decide)
  exact ⟨h.1.1, h.1.2⟩

/-- C7 witness: a concrete cycle whose queue phase spawns one queue-class
restart worker for pid 5 with the 60-second cooldown. -/
theorem restart_delay_matches_cause_witness :
    (⟨5, false, false, true, RESTART_DELAY_QUEUE⟩ : RestartTask) ∈
      (auto_restart_cycle
        ⟨[⟨5, "svc.jar", 10, 10⟩], [("svc.jar", 2000)], fun _ => none, true⟩ []).2 ∧
    (⟨5, false, false, true, RESTART_DELAY_QUEUE⟩ : RestartTask).delay_seconds =
      RESTART_DELAY_QUEUE := by
  have h := restart_delay_matches_cause
    ⟨[⟨5, "svc.jar", 10, 10⟩], [("svc.jar", 2000)], fun _ => none, true⟩ []
    ⟨5, false, false, true, RESTART_DELAY_QUEUE⟩ (by decide)
  exact ⟨by decide, h.1.1 rfl⟩

/-- C2 witness: a restarting entry at pid 7 is left alone by a concrete
cycle and no worker is spawned for it. -/
theorem restarting_pid_skipped_witness :
    PyDict.lookup (auto_restart_cycle ⟨[], [], fun _ => none, false⟩
        [(7, ⟨some true, some 80, some 1000, some 1000, some "a.jar", some true⟩)]).1 7 =
      some ⟨some true, some 80, some 1000, some 1000, some "a.jar", some true⟩ ∧
    ∀ t ∈ (auto_restart_cycle ⟨[], [], fun _ => none, false⟩
        [(7, ⟨some true, some 80, some 1000, some 1000, some "a.jar", some true⟩)]).2,
      t.pid ≠ 7 := by
  exact restarting_pid_skipped ⟨[], [], fun _ => none, false⟩
    [(7, ⟨some true, some 80, some 1000, some 1000, some "a.jar", some true⟩)]
    7 ⟨some true, some 80, some 1000, some 1000, some "a.jar", some true⟩
    (by unfold PyDict.keysNodup; decide) (by decide) (by decide)

/-- C9 witness: a failed start at a concrete store clears restarting on pid 3
and leaves pid 4 untouched. -/
theorem failed_start_clears_restarting_witness :
    PyDict.lookup (restart_thread_update
        [(3, ⟨some true, some 80, some 1000, some 500, some "a.jar", some true⟩)]
        3 ⟨false, none⟩) 3 =
      some ⟨some true, some 80, some 1000, some 500, some "a.jar", some false⟩ ∧
    PyDict.lookup (queue_restart_thread_update
        [(3, ⟨some true, some 80, some 1000, some 500, some "a.jar", some true⟩)]
        3 "a.jar" ⟨false, none⟩) 4 =
      PyDict.lookup
        [(3, ⟨some true, some 80, some 1000, some 500, some "a.jar", some true⟩)] 4 := by
  have h := failed_start_clears_restarting
    [(3, ⟨some true, some 80, some 1000, some 500, some "a.jar", some true⟩)]
    3 ⟨some true, some 80, some 1000, some 500, some "a.jar", some true⟩
    "a.jar" ⟨false, none⟩ (by decide) (by decide)
  exact ⟨h.1.1, h.2.2 4 (by decide)⟩

/-- C3: For every configuration request, if the supplied cpu threshold is
outside [1,100], or the memory threshold outside [1,10240] MB, or the queue
threshold outside [1,1000000] (after the endpoint defaults for absent keys),
configure_auto_restart rejects it; likewise set_queue_threshold for its
queue threshold; in both cases the in-memory and durable stores are
returned unchanged. -/
theorem out_of_range_thresholds_rejected (st : StoreState) (pid : Nat)
    (service_name : String) (req : ConfigRequest) (qreq : QueueThresholdRequest)
    (hbad :
      (req.cpu_threshold.getD DEFAULT_CPU_THRESHOLD < CPU_THRESHOLD_MIN ∨
        req.cpu_threshold.getD DEFAULT_CPU_THRESHOLD > CPU_THRESHOLD_MAX) ∨
      (req.memory_threshold_mb.getD DEFAULT_MEMORY_THRESHOLD_MB < MEMORY_THRESHOLD_MIN_MB ∨
        req.memory_threshold_mb.getD DEFAULT_MEMORY_THRESHOLD_MB > MEMORY_THRESHOLD_MAX_MB) ∨
      (req.queue_threshold.getD DEFAULT_QUEUE_THRESHOLD < QUEUE_THRESHOLD_MIN ∨
        req.queue_threshold.getD DEFAULT_QUEUE_THRESHOLD > QUEUE_THRESHOLD_MAX))
    (hqbad : qreq.queue_threshold.getD DEFAULT_QUEUE_THRESHOLD < QUEUE_THRESHOLD_MIN ∨
      qreq.queue_threshold.getD DEFAULT_QUEUE_THRESHOLD > QUEUE_THRESHOLD_MAX) :
    ((configure_auto_restart st pid service_name req).1.isRejected = true ∧
      (configure_auto_restart st pid service_name req).2 = st) ∧
    ((set_queue_threshold st pid service_name qreq).1.isRejected = true ∧
      (set_queue_threshold st pid service_name qreq).2 = st) := by
  constructor
  · by_cases h1 : req.cpu_threshold.getD DEFAULT_CPU_THRESHOLD < CPU_THRESHOLD_MIN ∨
        req.cpu_threshold.getD DEFAULT_CPU_THRESHOLD > CPU_THRESHOLD_MAX
    · simp only [configure_auto_restart]
      rw [if_pos h1]
      exact ⟨rfl, rfl⟩
    · by_cases h2 : req.memory_threshold_mb.getD DEFAULT_MEMORY_THRESHOLD_MB <
          MEMORY_THRESHOLD_MIN_MB ∨
          req.memory_threshold_mb.getD DEFAULT_MEMORY_THRESHOLD_MB > MEMORY_THRESHOLD_MAX_MB
      · simp only [configure_auto_restart]
        rw [if_neg h1, if_pos h2]
        exact ⟨rfl, rfl⟩
      · have h3 : req.queue_threshold.getD DEFAULT_QUEUE_THRESHOLD < QUEUE_THRESHOLD_MIN ∨
            req.queue_threshold.getD DEFAULT_QUEUE_THRESHOLD > QUEUE_THRESHOLD_MAX := by
          tauto
        simp only [configure_auto_restart]
        rw [if_neg h1, if_neg h2, if_pos h3]
        exact ⟨rfl, rfl⟩
  · simp only [set_queue_threshold]
    rw [if_pos hqbad]
    exact ⟨rfl, rfl⟩

/-- C3 witness: a cpu threshold of 150 and an independent queue threshold of
2000000 are both rejected on an empty state, unchanged. -/
theorem out_of_range_thresholds_rejected_witness :
    ((configure_auto_restart ⟨[], []⟩ 5 "x.jar"
        ⟨some true, some 150, none, none, none⟩).1.isRejected = true ∧
      (configure_auto_restart ⟨[], []⟩ 5 "x.jar"
        ⟨some true, some 150, none, none, none⟩).2 = ⟨[], []⟩) ∧
    ((set_queue_threshold ⟨[], []⟩ 5 "x.jar" ⟨some 2000000, none⟩).1.isRejected = true ∧
      (set_queue_threshold ⟨[], []⟩ 5 "x.jar" ⟨some 2000000, none⟩).2 = ⟨[], []⟩) := by
  exact out_of_range_thresholds_rejected ⟨[], []⟩ 5 "x.jar"
    ⟨some true, some 150, none, none, none⟩ ⟨some 2000000, none⟩
    (Or.inl (Or.inr (by norm_num [DEFAULT_CPU_THRESHOLD, CPU_THRESHOLD_MAX])))
    (Or.inr (by norm_num [DEFAULT_QUEUE_THRESHOLD, QUEUE_THRESHOLD_MAX]))

/-- C4: a disable request (enabled = false, in-range thresholds) for a pid
whose entry has a truthy queue_threshold keeps a reduced policy with
enabled = false, the queue_threshold intact and restarting = false, and
mirrors exactly that reduced policy (without restarting) to the durable
store; when the entry has no queue_threshold, the disable request deletes
the entry from both stores. -/
theorem disable_retains_queue_policy (st : StoreState) (pid : Nat)
    (service_name : String) (req : ConfigRequest) (c : RestartPolicy)
    (hen : req.enabled.getD false = false)
    (h1 : ¬ (req.cpu_threshold.getD DEFAULT_CPU_THRESHOLD < CPU_THRESHOLD_MIN ∨
        req.cpu_threshold.getD DEFAULT_CPU_THRESHOLD > CPU_THRESHOLD_MAX))
    (h2 : ¬ (req.memory_threshold_mb.getD DEFAULT_MEMORY_THRESHOLD_MB <
        MEMORY_THRESHOLD_MIN_MB ∨
        req.memory_threshold_mb.getD DEFAULT_MEMORY_THRESHOLD_MB > MEMORY_THRESHOLD_MAX_MB))
    (h3 : ¬ (req.queue_threshold.getD DEFAULT_QUEUE_THRESHOLD < QUEUE_THRESHOLD_MIN ∨
        req.queue_threshold.getD DEFAULT_QUEUE_THRESHOLD > QUEUE_THRESHOLD_MAX))
    (hc : PyDict.lookup st.mem pid = some c) :
    (∀ q : Nat, c.queue_threshold = some q → q ≠ 0 →
      PyDict.lookup (configure_auto_restart st pid service_name req).2.mem pid =
        some ⟨some false, none, none, some q,
          pyOrStr req.jar_name c.jar_name, some false⟩ ∧
      PyDict.lookup (configure_auto_restart st pid service_name req).2.dur service_name =
        some ⟨some false, none, none, some q, pyOrStr req.jar_name c.jar_name⟩) ∧
    (c.queue_threshold = none →
      PyDict.lookup (configure_auto_restart st pid service_name req).2.mem pid = none ∧
      PyDict.lookup (configure_auto_restart st pid service_name req).2.dur
        service_name = none) := by
  constructor
  · intro q hq hq0
    have hconf : configure_auto_restart st pid service_name req =
        (.ok, ⟨PyDict.insert st.mem pid
            ⟨some false, none, none, some q, pyOrStr req.jar_name c.jar_name, some false⟩,
          PyDict.insert st.dur service_name
            ⟨some false, none, none, some q, pyOrStr req.jar_name c.jar_name⟩⟩) := by
      simp only [configure_auto_restart]
      rw [if_neg h1, if_neg h2, if_neg h3, if_neg (by simp [hen]), hc]
      simp only [Option.getD_some, Option.isSome_some, if_true, hq]
      rw [if_pos (by simp [pyTruthyNat, hq0])]
    rw [hconf]
    exact ⟨PyDict.lookup_insert_self _ _ _, PyDict.lookup_insert_self _ _ _⟩
  · intro hq
    have hconf : configure_auto_restart st pid service_name req =
        (.ok, ⟨PyDict.erase st.mem pid, PyDict.erase st.dur service_name⟩) := by
      simp only [configure_auto_restart]
      rw [if_neg h1, if_neg h2, if_neg h3, if_neg (by simp [hen]), hc]
      simp only [Option.getD_some, Option.isSome_some, if_true, hq]
      rw [if_neg (by simp [pyTruthyNat])]
    rw [hconf]
    exact ⟨PyDict.lookup_erase_self _ _, PyDict.lookup_erase_self _ _⟩

/-- C4 witness: disabling pid 4 whose entry has queue_threshold 700 keeps
the reduced policy in memory and mirrors it durably. -/
theorem disable_retains_queue_policy_witness :
    PyDict.lookup (configure_auto_restart
        ⟨[(4, ⟨some true, some 70, some 900, some 700, some "q.jar", some false⟩)],
          [("q.jar", ⟨some true, some 70, some 900, some 700, some "q.jar"⟩)]⟩
        4 "q.jar" ⟨some false, none, none, none, none⟩).2.mem 4 =
      some ⟨some false, none, none, some 700, some "q.jar", some false⟩ ∧
    PyDict.lookup (configure_auto_restart
        ⟨[(4, ⟨some true, some 70, some 900, some 700, some "q.jar", some false⟩)],
          [("q.jar", ⟨some true, some 70, some 900, some 700, some "q.jar"⟩)]⟩
        4 "q.jar" ⟨some false, none, none, none, none⟩).2.dur "q.jar" =
      some ⟨some false, none, none, some 700, some "q.jar"⟩ := by
  have h := disable_retains_queue_policy
    ⟨[(4, ⟨some true, some 70, some 900, some 700, some "q.jar", some false⟩)],
      [("q.jar", ⟨some true, some 70, some 900, some 700, some "q.jar"⟩)]⟩
    4 "q.jar" ⟨some false, none, none, none, none⟩
    ⟨some true, some 70, some 900, some 700, some "q.jar", some false⟩
    (by decide)
    (by norm_num [DEFAULT_CPU_THRESHOLD, CPU_THRESHOLD_MIN, CPU_THRESHOLD_MAX])
    (by norm_num [DEFAULT_MEMORY_THRESHOLD_MB, MEMORY_THRESHOLD_MIN_MB,
      MEMORY_THRESHOLD_MAX_MB])
    (by norm_num [DEFAULT_QUEUE_THRESHOLD, QUEUE_THRESHOLD_MIN, QUEUE_THRESHOLD_MAX])
    (by decide)
  exact h.1 700 rfl (by decide)

/-- C10: a process that exists but whose command line is not classified as a
monitored service is refused by stop_service with the error
"Process is not a monitored service" and no termination call is issued;
terminate (and hence kill) is only ever attempted on processes whose
command line passes _is_service_process. -/
theorem stop_rejects_non_service (proc : ProcInfo)
    (h : is_service_cmdline proc.cmdline = false) :
    stop_service (some proc) =
      (⟨false, none, some "Process is not a monitored service"⟩, []) ∧
    ∀ (p : Option ProcInfo) (a : StopAction),
      a ∈ (stop_service p).2 → ∃ pr, p = some pr ∧
        is_service_cmdline pr.cmdline = true := by
  constructor
  · show (if ¬ is_service_cmdline proc.cmdline = true then
        ((⟨false, none, some "Process is not a monitored service"⟩ : StopResult),
          ([] : List StopAction))
      else _) = _
    rw [if_pos (by simp [h])]
  · intro p a ha
    cases p with
    | none => simp [stop_service] at ha
    | some pr =>
      refine ⟨pr, rfl, ?_⟩
      by_cases hs : is_service_cmdline pr.cmdline = true
      · exact hs
      · have hs' : is_service_cmdline pr.cmdline = false := by
          cases hb : is_service_cmdline pr.cmdline
          · rfl
          · exact absurd hb hs
        have hstop : stop_service (some pr) =
            (⟨false, none, some "Process is not a monitored service"⟩, []) := by
          show (if ¬ is_service_cmdline pr.cmdline = true then
              ((⟨false, none, some "Process is not a monitored service"⟩ : StopResult),
                ([] : List StopAction))
            else _) = _
          rw [if_pos (by simp [hs'])]
        rw [hstop] at ha
        cases ha

/-- C10 witness: a live python process is refused without any termination
call. -/
theorem stop_rejects_non_service_witness :
    stop_service (some ⟨["python3", "script.py"], true, true⟩) =
      (⟨false, none, some "Process is not a monitored service"⟩, []) := by
  exact (stop_rejects_non_service ⟨["python3", "script.py"], true, true⟩ (by decide)).1

/-- C8 counterexample: a telemetry-source failure is caught by the inner
handler at src/app.py lines 1155-1156; the iteration performs only the
normal 30-second sleep, without the 60-second error backoff the claim
requires for telemetry failures, and the outer handler does not run. -/
theorem telemetry_failure_no_backoff :
    monitor_iteration ⟨false, true, false, false⟩ =
      ⟨true, [AUTO_RESTART_CHECK_INTERVAL], false⟩ ∧
    AUTO_RESTART_ERROR_RETRY_INTERVAL ∉
      (monitor_iteration ⟨false, true, false, false⟩).sleeps := by
  exact ⟨by decide, by decide⟩

/-- C8 (amended): no fault ever terminates the evaluation loop - every
iteration continues; but only an exception that escapes to the outer
handler (e.g. the process-listing failing) incurs the 60-second
error-backoff sleep, in addition to the next iteration's normal 30-second
sleep; telemetry-source, folder-scan and per-pid inspector failures are
caught by inner handlers and the loop proceeds at the normal interval. -/
theorem monitor_loop_survives_faults (f : CycleFaults) :
    (monitor_iteration f).loop_continues = true ∧
    ((monitor_iteration f).outer_handler_ran = true ↔ f.listing_raises = true) ∧
    (AUTO_RESTART_ERROR_RETRY_INTERVAL ∈ (monitor_iteration f).sleeps ↔
      f.listing_raises = true) := by
  unfold monitor_iteration
  by_cases h : f.listing_raises = true
  · simp [h]
  · have h' : f.listing_raises = false := by
      cases hb : f.listing_raises
      · rfl
      · exact absurd hb h
    rw [if_neg (by simp [h'])]
    refine ⟨rfl, by simp [h'], ?_⟩
    simp [h', AUTO_RESTART_CHECK_INTERVAL, AUTO_RESTART_ERROR_RETRY_INTERVAL]

/-- C5 counterexample: a queue-only entry (enabled = false) for pid 100
whose process no longer exists (the Inspector reports NotFound and the pid
is absent from the listing) is NOT removed by the cycle: the CPU/memory
phase skips disabled entries before its NotFound cleanup, and the queue
phase only visits live services, so the entry survives untouched. -/
theorem dead_disabled_entry_not_removed :
    (⟨[], [], fun _ => none, false⟩ : CycleEnv).details 100 = none ∧
    PyDict.lookup (auto_restart_cycle ⟨[], [], fun _ => none, false⟩
        [(100, ⟨some false, none, none, some 5, some "a.jar", some false⟩)]).1 100 =
      some ⟨some false, none, none, some 5, some "a.jar", some false⟩ := by
  exact ⟨rfl, by decide⟩

/-- C5 (amended): when the Inspector reports NotFound for a tracked pid
whose entry has enabled = true and restarting = false (and the pid is
absent from the live listing), the cycle removes the entry and spawns no
restart worker for it; entries with enabled = false (queue-only policies)
are skipped by the cleanup and remain in the store. -/
theorem notfound_enabled_entry_removed (env : CycleEnv) (mem : ConfigStore)
    (pid : Nat) (c : RestartPolicy) (hnd : PyDict.keysNodup mem)
    (hc : PyDict.lookup mem pid = some c)
    (hen : c.enabled.getD false = true)
    (hr : c.restarting.getD false = false)
    (hdead : env.details pid = none)
    (hlive : ∀ s ∈ env.running_services, s.pid ≠ pid) :
    PyDict.lookup (auto_restart_cycle env mem).1 pid = none ∧
    ∀ t ∈ (auto_restart_cycle env mem).2, t.pid ≠ pid := by
  simp only [auto_restart_cycle]
  obtain ⟨hp1, hp1t⟩ := queue_check_phase_dead_pid env mem hlive
  have hc1 : PyDict.lookup (queue_check_phase env mem).1 pid = some c := hp1.trans hc
  have hnd1 := queue_check_phase_nodup env mem hnd
  obtain ⟨l₁, l₂, hdec, hl₁, hl₂⟩ := PyDict.lookup_decomp hnd1 hc1
  have hskip₁ : ∀ e ∈ l₁, e.1 = pid →
      e.2.enabled.getD false = false ∨ e.2.restarting.getD false = true :=
    fun e he hep => absurd hep (hl₁ e he)
  have hskip₂ : ∀ e ∈ l₂, e.1 = pid →
      e.2.enabled.getD false = false ∨ e.2.restarting.getD false = true :=
    fun e he hep => absurd hep (hl₂ e he)
  rw [hdec, List.foldl_append, List.foldl_cons]
  obtain ⟨ha1, ha1t⟩ := cpuMem_fold_skipped env l₁ (queue_check_phase env mem) hskip₁
  have hstep : cpuMemCheckStep env
      (l₁.foldl (cpuMemCheckStep env) (queue_check_phase env mem)) (pid, c) =
      (PyDict.erase
        (l₁.foldl (cpuMemCheckStep env) (queue_check_phase env mem)).1 pid,
       (l₁.foldl (cpuMemCheckStep env) (queue_check_phase env mem)).2) :=
    cpuMemCheckStep_notfound hen hr hdead
  rw [hstep]
  obtain ⟨hfin, hfint⟩ := cpuMem_fold_skipped env l₂ _ hskip₂
  constructor
  · rw [hfin]
    exact PyDict.lookup_erase_self _ _
  · intro t ht
    rcases hfint t ht with hin | hne
    · rcases ha1t t hin with hin2 | hne2
      · exact hp1t t hin2
      · exact hne2
    · exact hne

/-- C5 witness: the amended cleanup at a concrete store. -/
theorem notfound_enabled_entry_removed_witness :
    PyDict.lookup (auto_restart_cycle ⟨[], [], fun _ => none, false⟩
        [(9, ⟨some true, some 80, some 1000, some 1000, some "b.jar", some false⟩)]).1 9 =
      none := by
  have h := notfound_enabled_entry_removed ⟨[], [], fun _ => none, false⟩
    [(9, ⟨some true, some 80, some 1000, some 1000, some "b.jar", some false⟩)]
    9 ⟨some true, some 80, some 1000, some 1000, some "b.jar", some false⟩
    (by unfold PyDict.keysNodup; decide) (by decide) (by decide) (by decide)
    rfl (by decide)
  exact h.1

/-- C6: For a tracked pid (entry not restarting) with a live snapshot
consistent between the listing and the Inspector, a cycle spawns a restart
worker for that pid iff at least one of the three breach conditions holds:
cpu_exceeded (enabled and cpu% >= cpu_threshold), memory_exceeded (enabled
and memory_mb >= memory_threshold_mb), or queue_exceeded (a queue matched
to the service name with backlog >= queue_threshold, regardless of the
enabled flag); the comparisons are non-strict, so equality triggers. -/
theorem breach_evaluation_iff (env : CycleEnv) (mem : ConfigStore)
    (pid : Nat) (c : RestartPolicy) (d s0 : LiveService)
    (hnd : PyDict.keysNodup mem)
    (hc : PyDict.lookup mem pid = some c)
    (hr : c.restarting.getD false = false)
    (hd : env.details pid = some d)
    (hs0 : s0 ∈ env.running_services) (hs0p : s0.pid = pid)
    (huniq : ∀ s ∈ env.running_services, s.pid = pid →
      s.service_name = d.service_name)
    (hgate : env.queue_message_counts ≠ [] → env.msmq_on = true) :
    (∃ t ∈ (auto_restart_cycle env mem).2, t.pid = pid) ↔
      ((c.enabled.getD false && cpuExceededAt c d) ||
       (c.enabled.getD false && memExceededAt c d) ||
       queueExceededAt env.queue_message_counts c d) = true := by
  simp only [auto_restart_cycle]
  have hnd1 := queue_check_phase_nodup env mem hnd
  have hqExEq : queueExceededAt env.queue_message_counts c d =
      (match PyDict.lookup env.queue_message_counts d.service_name with
       | some cnt => decide (c.queue_threshold.getD DEFAULT_QUEUE_THRESHOLD ≤ cnt)
       | none => false) := rfl
  have hP1 :
      ((∃ t ∈ (queue_check_phase env mem).2, t.pid = pid) →
        queueExceededAt env.queue_message_counts c d = true ∧
        PyDict.lookup (queue_check_phase env mem).1 pid =
          some { c with restarting := some true }) ∧
      (¬ (∃ t ∈ (queue_check_phase env mem).2, t.pid = pid) →
        PyDict.lookup (queue_check_phase env mem).1 pid = some c) := by
    unfold queue_check_phase
    split
    · exact queue_fold_invariant env.queue_message_counts hr hqExEq
        env.running_services huniq (mem, [])
        (fun hex => absurd hex (by simp))
        (fun _ => hc)
    · exact ⟨fun hex => absurd hex (by simp), fun _ => hc⟩
  constructor
  · intro hex
    by_cases hq1 : ∃ t ∈ (queue_check_phase env mem).2, t.pid = pid
    · have hqt := (hP1.1 hq1).1
      simp [hqt]
    · have hc1 := hP1.2 hq1
      have hl : ∀ e ∈ (queue_check_phase env mem).1, e.1 = pid →
          e.2 = c ∨ (e.2.enabled.getD false = false ∨
            e.2.restarting.getD false = true) := by
        intro e he hep
        left
        have hme : (pid, e.2) ∈ (queue_check_phase env mem).1 := by
          rw [← hep]
          exact he
        have hle := PyDict.lookup_of_mem_nodup hnd1 hme
        exact Option.some.inj (hle.symm.trans hc1)
      obtain ⟨t, ht, htp⟩ := hex
      rcases cpuMem_fold_pid_task_cause env hd (queue_check_phase env mem).1 hl
        (queue_check_phase env mem) t ht with hin | hne | hEx
      · exact absurd ⟨t, hin, htp⟩ hq1
      · exact absurd htp hne
      · exact hEx
  · intro hEx
    cases hqEx : queueExceededAt env.queue_message_counts c d with
    | true =>
      have hqc' : ∃ cnt,
          PyDict.lookup env.queue_message_counts d.service_name = some cnt ∧
          c.queue_threshold.getD DEFAULT_QUEUE_THRESHOLD ≤ cnt := by
        unfold queueExceededAt at hqEx
        cases hl : PyDict.lookup env.queue_message_counts d.service_name with
        | none => rw [hl] at hqEx; cases hqEx
        | some cnt =>
          rw [hl] at hqEx
          exact ⟨cnt, rfl, of_decide_eq_true hqEx⟩
      obtain ⟨cnt, hlq, hge⟩ := hqc'
      have hnonempty : env.queue_message_counts ≠ [] := by
        intro hnil
        rw [hnil] at hlq
        cases hlq
      have hms : env.msmq_on = true := hgate hnonempty
      have hphase : queue_check_phase env mem =
          env.running_services.foldl
            (queueCheckStep env.queue_message_counts) (mem, []) := by
        unfold queue_check_phase
        rw [if_pos ⟨hms, hnonempty⟩]
      have hfires := queue_fold_fires env.queue_message_counts hr hlq hge hs0p
        env.running_services hs0 huniq (mem, []) (Or.inr hc)
      obtain ⟨t, ht, htp⟩ := hfires
      refine ⟨t, ?_, htp⟩
      apply cpuMem_fold_tasks_mono
      rw [hphase]
      exact ht
    | false =>
      rw [hqEx] at hEx
      simp only [Bool.or_false] at hEx
      have hen : c.enabled.getD false = true := by
        cases he : c.enabled.getD false
        · rw [he] at hEx; simp at hEx
        · rfl
      have hcm : (cpuExceededAt c d || memExceededAt c d) = true := by
        rw [hen] at hEx
        simpa using hEx
      by_cases hq1 : ∃ t ∈ (queue_check_phase env mem).2, t.pid = pid
      · obtain ⟨t, ht, htp⟩ := hq1
        exact ⟨t, cpuMem_fold_tasks_mono env _ _ ht, htp⟩
      · have hc1 := hP1.2 hq1
        obtain ⟨l₁, l₂, hdec, hl₁, hl₂⟩ := PyDict.lookup_decomp hnd1 hc1
        have hcond : (cpuExceededAt c d || memExceededAt c d ||
            queueExceededAt env.queue_message_counts c d) = true := by
          rw [hqEx]
          simpa using hcm
        rw [hdec, List.foldl_append, List.foldl_cons]
        have hfire :=
          @cpuMemCheckStep_fires env
            (l₁.foldl (cpuMemCheckStep env) (queue_check_phase env mem)) (pid, c) d
            hen hr hd hcond
        rw [hfire]
        exact ⟨_, cpuMem_fold_tasks_mono env l₂ _
          (List.mem_append_right _ (List.mem_singleton_self _)), rfl⟩

/-- C6 witness: a concrete cycle where cpu% equals the threshold (80 = 80)
for an enabled policy on pid 11; the iff produces a spawned worker. -/
theorem breach_evaluation_iff_witness :
    ∃ t ∈ (auto_restart_cycle
        ⟨[⟨11, "c.jar", 80, 10⟩], [],
          fun p => if p = 11 then some ⟨11, "c.jar", 80, 10⟩ else none, false⟩
        [(11, ⟨some true, some 80, some 1000, some 1000, some "c.jar", some false⟩)]).2,
      t.pid = 11 := by
  have h := breach_evaluation_iff
    ⟨[⟨11, "c.jar", 80, 10⟩], [],
      fun p => if p = 11 then some ⟨11, "c.jar", 80, 10⟩ else none, false⟩
    [(11, ⟨some true, some 80, some 1000, some 1000, some "c.jar", some false⟩)]
    11 ⟨some true, some 80, some 1000, some 1000, some "c.jar", some false⟩
    ⟨11, "c.jar", 80, 10⟩ ⟨11, "c.jar", 80, 10⟩
    (by unfold PyDict.keysNodup; decide) (by decide) (by decide) (by decide)
    (by decide) (by decide) (by decide) (by decide)
  exact h.mpr (by decide)
